import Mathlib

/-
Verification of the provisioning sequencer in setup_reels.py against its
natural-language specification.  The script's operations are shallowly
embedded: each child-process spawn is represented by an explicit
`SpawnOutcome` supplied as a parameter (the behaviour of the outside world),
and the script's pure control flow around those spawns is translated
function by function from the Python source.  Python exceptions become
`Except` errors; the distinct `RuntimeError` message formats of the source
("Command failed (exit N)", "Command not found", "Unsupported OS",
"Clone succeeded but package.json not found") become distinct error
constructors.
-/

namespace SetupReels

/-- Decidable equality for Except results, so claims can be checked on
concrete inputs by evaluation. -/
def instExceptDecEq (e a : Type) [DecidableEq e] [DecidableEq a] :
    DecidableEq (Except e a) := fun x y =>
  match x, y with
  | .ok u, .ok v =>
      if h : u = v then isTrue (by rw [h]) else isFalse (by simp [h])
  | .error u, .error v =>
      if h : u = v then isTrue (by rw [h]) else isFalse (by simp [h])
  | .ok _, .error _ => isFalse (by simp)
  | .error _, .ok _ => isFalse (by simp)

attribute [instance] instExceptDecEq

/-- A command as passed to `run` in setup_reels.py: either an argument
vector (a Python list) or a raw shell string. -/
inductive Cmd where
  | argv (args : List String)
  | shellStr (s : String)
deriving DecidableEq, Repr

/-- The printable form built at the top of `run`: a list is joined with
spaces, a string is used as is. -/
def Cmd.printable : Cmd → String
  | .argv args => String.intercalate " " args
  | .shellStr s => s

/-- The executable name used in the "Command not found" message:
`cmd[0]` for a list, `cmd.split()[0]` for a string. -/
def Cmd.firstWord : Cmd → String
  | .argv args => args.headD ""
  | .shellStr s => (s.splitOn " ").headD ""

/-- True exactly for the argument-vector form of a command. -/
def Cmd.isArgVector : Cmd → Bool
  | .argv _ => true
  | .shellStr _ => false

/-- Outcome of spawning a child process: the executable was absent
(Python raises FileNotFoundError), or the process ran and exited with a
return code, producing some stdout and stderr text. -/
inductive SpawnOutcome where
  | notFound
  | exited (returncode : Int) (stdout : String) (stderr : String)
deriving DecidableEq, Repr

/-- The errors `run` can raise, mirroring the two RuntimeError messages of
setup_reels.py lines 92 and 97: "Command failed (exit rc): printable" and
"Command not found: name". -/
inductive RunError where
  | stepFailed (printable : String) (returncode : Int)
  | executableNotFound (name : String)
deriving DecidableEq, Repr

/-- The subprocess.CompletedProcess fields the script reads: the return
code, and the captured stdout/stderr when capture_output was requested
(None otherwise). -/
structure ExecutionResult where
  returncode : Int
  stdout : Option String
  stderr : Option String
deriving DecidableEq, Repr

/-- Shallow embedding of `run` (setup_reels.py lines 69-98).  On
FileNotFoundError: raise "Command not found" when check, else return None.
Otherwise: raise "Command failed (exit rc)" when check and the return code
is non-zero, else return the completed-process record, with output fields
populated only when capture_output. -/
def run (cmd : Cmd) (outcome : SpawnOutcome) (check : Bool)
    (captureOutput : Bool) : Except RunError (Option ExecutionResult) :=
  match outcome with
  | .notFound =>
      if check then .error (.executableNotFound cmd.firstWord)
      else .ok none
  | .exited rc out err =>
      if check ∧ rc ≠ 0 then .error (.stepFailed cmd.printable rc)
      else .ok (some { returncode := rc
                       stdout := if captureOutput then some out else none
                       stderr := if captureOutput then some err else none })

/-- A sequence of steps handed to the step runner in order: each step is a
command, the outcome its child process would have, and its check flag.  A
raised error aborts the rest of the sequence; a tolerated failure lets the
sequence continue, collecting each step's result. -/
def runSteps : List (Cmd × SpawnOutcome × Bool) →
    Except RunError (List (Option ExecutionResult))
  | [] => .ok []
  | (cmd, outcome, check) :: rest =>
      match run cmd outcome check false with
      | .error e => .error e
      | .ok r => (runSteps rest).map (fun rs => r :: rs)

/-- The error raised by `get_os` for an unrecognized platform identifier
("Unsupported OS: ..."). -/
inductive OsError where
  | unsupportedPlatform (system : String)
deriving DecidableEq, Repr

/-- ASCII lower-casing of one character, as Python str.lower acts on the
identifiers platform.system can produce. -/
def lowerChar (c : Char) : Char :=
  if 65 ≤ c.toNat ∧ c.toNat ≤ 90 then Char.ofNat (c.toNat + 32) else c

/-- ASCII lower-casing of a string, modelling the .lower() call at
setup_reels.py line 108. -/
def strLower (s : String) : String := ⟨s.data.map lowerChar⟩

/-- Shallow embedding of `get_os` (setup_reels.py lines 106-116): lower the
platform.system() identifier, map darwin to macos, keep linux and windows,
and raise on everything else.  A pure function of the identifier, hence
deterministic and side-effect free. -/
def get_os (system : String) : Except OsError String :=
  if strLower system = "darwin" then .ok "macos"
  else if strLower system = "linux" then .ok "linux"
  else if strLower system = "windows" then .ok "windows"
  else .error (.unsupportedPlatform (strLower system))

/-- What clone_or_validate_repo did to the filesystem on its success path:
whether the parent directories were created and whether the clone command
was invoked. -/
structure CloneEffects where
  mkdirParentsInvoked : Bool
  cloneInvoked : Bool
deriving DecidableEq, Repr

/-- The errors clone_or_validate_repo can raise: a propagated step-runner
error from the clone command, or the "Clone succeeded but package.json not
found" RuntimeError of line 436. -/
inductive CloneError where
  | runError (e : RunError)
  | corruptClone (projectDir : String)
deriving DecidableEq, Repr

/-- Shallow embedding of `clone_or_validate_repo` (setup_reels.py lines
423-438).  World inputs: whether package.json already exists in the target
directory, the outcome of the git-clone child process, and whether
package.json exists after the clone.  If the manifest is present the
function returns at once, touching nothing; otherwise it creates the
parent directories, clones with check=True, and raises the corrupt-clone
error when the manifest is still absent after a successful clone. -/
def clone_or_validate_repo (repoUrl projectDir : String)
    (manifestExists : Bool) (cloneOutcome : SpawnOutcome)
    (manifestAfterClone : Bool) : Except CloneError CloneEffects :=
  if manifestExists then .ok ⟨false, false⟩
  else
    match run (.argv ["git", "clone", repoUrl, projectDir])
        cloneOutcome true false with
    | .error e => .error (.runError e)
    | .ok _ =>
        if manifestAfterClone then .ok ⟨true, true⟩
        else .error (.corruptClone projectDir)

/-- The guard at the top of `brew_install` (setup_reels.py line 256):
Python's `if rc and rc.returncode == 0` is false when `run` returned None
(truthiness of None) and otherwise tests the return code. -/
def brewAlreadyInstalled (probe : Option ExecutionResult) : Bool :=
  match probe with
  | some r => r.returncode = 0
  | none => false

/-- Shallow embedding of `brew_install` (setup_reels.py lines 253-262).
World inputs: the outcome of the `brew list --versions` probe and of the
`brew install` command.  Returns whether the install command was invoked.
The probe runs with check=False and capture_output=True; the install runs
with check=True. -/
def brew_install (formula : String) (probeOutcome installOutcome : SpawnOutcome) :
    Except RunError Bool :=
  match run (.argv ["brew", "list", "--versions", formula])
      probeOutcome false true with
  | .error e => .error e
  | .ok probe =>
      if brewAlreadyInstalled probe then .ok false
      else
        match run (.argv ["brew", "install", formula])
            installOutcome true false with
        | .error e => .error e
        | .ok _ => .ok true

/-- The fallback formula order tried by setup_node_macos (line 274). -/
def nodeFormulas : List String := ["node@22", "node@20", "node"]

/-- True when a spawn outcome is a process that exited with code zero. -/
def zeroExit : SpawnOutcome → Bool
  | .exited rc _ _ => rc = 0
  | .notFound => false

/-- The loop body of setup_node_macos lines 274-277: try each formula with
`run(["brew", "install", formula], check=False)` and break at the first
result that is not None and has return code zero.  Returns the list of
formulas actually attempted, in order. -/
def attemptFormulas (outcomes : String → SpawnOutcome) :
    List String → List String
  | [] => []
  | f :: rest =>
      match run (.argv ["brew", "install", f]) (outcomes f) false false with
      | .ok (some r) =>
          if r.returncode = 0 then [f]
          else f :: attemptFormulas outcomes rest
      | _ => f :: attemptFormulas outcomes rest

/-- Shallow embedding of the install-attempt sequence of `setup_node_macos`
(setup_reels.py lines 265-289): when node is already on the search path the
function returns before attempting any formula; otherwise it walks the
fixed formula list. -/
def setup_node_macos_attempts (nodePresent : Bool)
    (outcomes : String → SpawnOutcome) : List String :=
  if nodePresent then [] else attemptFormulas outcomes nodeFormulas

/-- Modelled from the spec: the repository's second, Linux-only installer
script (the spec's section 9 open question) is not present under src/, and
the Chromium version fork lives in it.  Per the spec, a distribution
version string whose major part starts with "24" selects the modern
dependency set; anything else selects the legacy set. -/
def versionSelectsModernChromium (version : String) : Bool :=
  match version.data with
  | '2' :: '4' :: _ => true
  | _ => false

/-- Modelled from the spec: the Chromium package name chosen by the
Linux-only installer script for a given distribution version string. -/
def chromiumPackageFor (version : String) : String :=
  if versionSelectsModernChromium version then "chromium"
  else "chromium-browser"

/-- Modelled from the spec: the resolved Chromium binary path chosen by
the Linux-only installer script for a given distribution version
string. -/
def chromiumBinaryPathFor (version : String) : String :=
  if versionSelectsModernChromium version then "/usr/bin/chromium"
  else "/usr/bin/chromium-browser"

/-- How one execution of main() ends, as observed by the top-level
try/except of setup_reels.py lines 588-598: a normal return, a
KeyboardInterrupt, or any other exception with its message. -/
inductive MainOutcome where
  | success
  | interrupted
  | failed (message : String)

/-- The value main() returns on its success path (line 585). -/
def mainReturnValue : Nat := 0

/-- What the top-level handler produces: the process exit code, whether
the friendly interrupt message was printed, and whether a stack trace was
printed. -/
structure TopLevelReport where
  exitCode : Nat
  friendlyInterruptMessage : Bool
  stackTracePrinted : Bool
deriving DecidableEq, Repr

/-- Shallow embedding of the `if __name__ == "__main__"` block (lines
588-598): sys.exit(main()) on success, the friendly message and
sys.exit(130) on KeyboardInterrupt, and the error print plus traceback and
sys.exit(1) on any other exception. -/
def topLevel : MainOutcome → TopLevelReport
  | .success => ⟨mainReturnValue, false, false⟩
  | .interrupted => ⟨130, true, false⟩
  | .failed _ => ⟨1, false, true⟩

/-- The RuntimeError message texts of setup_reels.py lines 92 and 97, as a
function of the error value. -/
def RunError.message : RunError → String
  | .stepFailed p rc => "Command failed (exit " ++ toString rc ++ "): " ++ p
  | .executableNotFound n => "Command not found: " ++ n

/-- What render_video reports: whether the missing-artifact warning was
printed and which expected path the message names. -/
structure RenderReport where
  warned : Bool
  expectedPath : String
deriving DecidableEq, Repr

/-- Shallow embedding of `render_video` (setup_reels.py lines 451-474):
run `pnpm render` with check=True, then test whether out/video.mp4 exists
under the project directory; when it does not, print the non-fatal warning
naming the expected path and return normally. -/
def render_video (projectDir : String) (renderOutcome : SpawnOutcome)
    (artifactExists : Bool) : Except RunError RenderReport :=
  match run (.argv ["pnpm", "render"]) renderOutcome true false with
  | .error e => .error e
  | .ok _ =>
      if artifactExists then .ok ⟨false, projectDir ++ "/out/video.mp4"⟩
      else .ok ⟨true, projectDir ++ "/out/video.mp4"⟩

/-- The render stage as the top level sees it: an exception from
render_video reaches the handler of lines 594-598, a normal return lets
main() finish and return 0. -/
def mainRenderStage (projectDir : String) (renderOutcome : SpawnOutcome)
    (artifactExists : Bool) : TopLevelReport × Option RenderReport :=
  match render_video projectDir renderOutcome artifactExists with
  | .ok rep => (topLevel .success, some rep)
  | .error e => (topLevel (.failed e.message), none)

/-- The PowerShell command string of setup_reels.py lines 147-153 that
bootstraps Chocolatey; it is passed as one element of an argument
vector. -/
def chocoBootstrapScript : String :=
  "Set-ExecutionPolicy Bypass -Scope Process -Force; [System.Net.ServicePointManager]::SecurityProtocol = [System.Net.ServicePointManager]::SecurityProtocol -bor 3072; iex ((New-Object System.Net.WebClient).DownloadString(\x27https://community.chocolatey.org/install.ps1\x27))"

/-- The Homebrew bootstrap command of setup_reels.py lines 236-240: a raw
shell string handed to run with shell=True. -/
def homebrewInstallCmd : Cmd :=
  .shellStr "/bin/bash -c \"$(curl -fsSL https://raw.githubusercontent.com/Homebrew/install/HEAD/install.sh)\""

/-- Every command the Windows profile can hand to run (lines 132-213). -/
def windowsRunCommands : List Cmd :=
  [.argv ["powershell", "-Command", chocoBootstrapScript],
   .argv ["choco", "install", "git", "-y"],
   .argv ["choco", "install", "ffmpeg", "-y"],
   .argv ["choco", "install", "nodejs-lts", "-y"],
   .argv ["refreshenv"],
   .argv ["node", "-v"],
   .argv ["npm", "-v"]]

/-- Every command the macOS profile can hand to run (lines 228-310). -/
def macosRunCommands : List Cmd :=
  [homebrewInstallCmd,
   .argv ["brew", "update"],
   .argv ["brew", "list", "--versions", "git"],
   .argv ["brew", "install", "git"],
   .argv ["brew", "list", "--versions", "ffmpeg"],
   .argv ["brew", "install", "ffmpeg"],
   .argv ["brew", "list", "--versions", "mpv"],
   .argv ["brew", "install", "mpv"],
   .argv ["brew", "install", "node@22"],
   .argv ["brew", "install", "node@20"],
   .argv ["brew", "install", "node"],
   .argv ["node", "-v"],
   .argv ["npm", "-v"]]

/-- Every command the Linux profile can hand to run (lines 317-385). -/
def linuxRunCommands : List Cmd :=
  [.argv ["sudo", "apt", "update"],
   .argv ["dpkg", "-l", "git"],
   .argv ["sudo", "apt", "install", "-y", "git"],
   .argv ["dpkg", "-l", "curl"],
   .argv ["sudo", "apt", "install", "-y", "curl"],
   .argv ["dpkg", "-l", "ffmpeg"],
   .argv ["sudo", "apt", "install", "-y", "ffmpeg"],
   .argv ["dpkg", "-l", "mpv"],
   .argv ["sudo", "apt", "install", "-y", "mpv"],
   .argv ["curl", "-fsSL", "https://deb.nodesource.com/setup_22.x",
     "-o", "/tmp/nodesource_setup.sh"],
   .argv ["sudo", "bash", "/tmp/nodesource_setup.sh"],
   .argv ["dpkg", "-l", "nodejs"],
   .argv ["sudo", "apt", "install", "-y", "nodejs"],
   .argv ["node", "-v"],
   .argv ["npm", "-v"]]

/-- Every command the shared final stage can hand to run (lines 392-474):
pnpm setup, clone, dependency install, render. -/
def commonRunCommands (repoUrl projectDir : String) : List Cmd :=
  [.argv ["pnpm", "-v"],
   .argv ["corepack", "enable"],
   .argv ["corepack", "prepare", "pnpm@latest", "--activate"],
   .argv ["npm", "install", "-g", "pnpm"],
   .argv ["git", "clone", repoUrl, projectDir],
   .argv ["pnpm", "install"],
   .argv ["pnpm", "render"]]

/-- Every command any OS profile or the shared stage can hand to run. -/
def allRunCommands (repoUrl projectDir : String) : List Cmd :=
  windowsRunCommands ++ macosRunCommands ++ linuxRunCommands ++
    commonRunCommands repoUrl projectDir

end SetupReels

open SetupReels

/-- Claim C1: for every executed installation step, if the step's
tolerate-failure flag is false (check=True) and the child exits non-zero,
the step runner raises the step-failure error carrying the original exit
code and the run aborts (the remaining steps are never consulted); if the
flag is true (check=False), the non-zero exit does not raise and the step
sequence continues with the remaining steps. -/
theorem C1_check_flag_governs_failure (cmd : Cmd) (rc : Int)
    (out err : String) (rest : List (Cmd × SpawnOutcome × Bool))
    (h : rc ≠ 0) :
    runSteps ((cmd, .exited rc out err, true) :: rest) =
      .error (.stepFailed cmd.printable rc) ∧
    runSteps ((cmd, .exited rc out err, false) :: rest) =
      (runSteps rest).map
        (fun rs => some ⟨rc, none, none⟩ :: rs) := by
  constructor
  · simp [runSteps, run, h]
  · simp [runSteps, run]

/-- Witness for C1 at a concrete failing step. -/
theorem C1_witness :
    (1 : Int) ≠ 0 ∧
    (runSteps ((.argv ["git", "clone"], .exited 1 "" "", true) :: []) =
      .error (.stepFailed "git clone" 1) ∧
    runSteps ((.argv ["git", "clone"], .exited 1 "" "", false) :: []) =
      (runSteps []).map (fun rs => some ⟨1, none, none⟩ :: rs)) :=
  ⟨by decide,
   C1_check_flag_governs_failure (.argv ["git", "clone"]) 1 "" "" []
     (by decide)⟩

/-- Claim C3: a step whose executable cannot be found at all, run with
tolerate-failure false, raises the executable-not-found error, a
constructor distinct from the step-failed error raised for a found
executable that exits non-zero. -/
theorem C3_not_found_distinct_error (cmd : Cmd) :
    run cmd .notFound true false =
      .error (.executableNotFound cmd.firstWord) ∧
    ∀ (p : String) (rc : Int),
      (RunError.executableNotFound cmd.firstWord) ≠ .stepFailed p rc := by
  refine ⟨by simp [run], fun p rc => ?_⟩
  intro hcontra
  exact RunError.noConfusion hcontra

/-- Claim C2: for every host platform identifier, get_os returns exactly
one of windows, macos or linux (darwin maps to macos), and for any other
identifier it raises the unsupported-platform error.  As a pure function
of its argument the embedded detector is deterministic and side-effect
free by construction. -/
theorem C2_get_os_total (s : String) :
    ((get_os s = .ok "windows" ∨ get_os s = .ok "macos" ∨
        get_os s = .ok "linux") ∨
      get_os s = .error (.unsupportedPlatform (strLower s))) ∧
    get_os "Darwin" = .ok "macos" ∧
    (strLower s ≠ "darwin" → strLower s ≠ "linux" →
      strLower s ≠ "windows" →
      get_os s = .error (.unsupportedPlatform (strLower s))) := by
  refine ⟨?_, by decide, ?_⟩
  · unfold get_os
    split_ifs <;> simp
  · intro h1 h2 h3
    unfold get_os
    simp [h1, h2, h3]

/-- Witness for C2 at the concrete unrecognized identifier freebsd. -/
theorem C2_get_os_total_witness :
    (strLower "freebsd" ≠ "darwin" ∧ strLower "freebsd" ≠ "linux" ∧
      strLower "freebsd" ≠ "windows") ∧
    get_os "freebsd" = .error (.unsupportedPlatform (strLower "freebsd")) :=
  ⟨⟨by decide, by decide, by decide⟩,
   (C2_get_os_total "freebsd").2.2 (by decide) (by decide) (by decide)⟩

/-- Claim C4: clone-or-validate is idempotent.  When the manifest file
already exists the clone command is never invoked and the directory is
left untouched; otherwise the parent directories are created, the clone is
invoked, and the corrupt-clone error is raised exactly when the manifest
is still absent after a successful clone. -/
theorem C4_clone_or_validate_idempotent (url dir : String)
    (co : SpawnOutcome) (ma : Bool) (out err : String) :
    clone_or_validate_repo url dir true co ma = .ok ⟨false, false⟩ ∧
    clone_or_validate_repo url dir false (.exited 0 out err) true =
      .ok ⟨true, true⟩ ∧
    clone_or_validate_repo url dir false (.exited 0 out err) false =
      .error (.corruptClone dir) := by
  refine ⟨?_, ?_, ?_⟩ <;> simp [clone_or_validate_repo, run]

/-- One unrolling of the macOS node-install loop: a formula is the last
one attempted exactly when its brew-install child exited zero. -/
theorem attemptFormulas_cons (outcomes : String → SpawnOutcome)
    (f : String) (rest : List String) :
    attemptFormulas outcomes (f :: rest) =
      if zeroExit (outcomes f) then [f]
      else f :: attemptFormulas outcomes rest := by
  cases h : outcomes f with
  | notFound => simp [attemptFormulas, run, zeroExit, h]
  | exited rc out err =>
      by_cases hrc : rc = 0 <;>
        simp [attemptFormulas, run, zeroExit, h, hrc]

/-- Claim C5: on a macOS host with no node on the search path, the node
install attempts the formulas in the order node@22, node@20, node,
stopping at the first attempt whose exit code is zero. -/
theorem C5_node_macos_formula_order (outcomes : String → SpawnOutcome) :
    (zeroExit (outcomes "node@22") = true →
      setup_node_macos_attempts false outcomes = ["node@22"]) ∧
    (zeroExit (outcomes "node@22") = false →
      zeroExit (outcomes "node@20") = true →
      setup_node_macos_attempts false outcomes = ["node@22", "node@20"]) ∧
    (zeroExit (outcomes "node@22") = false →
      zeroExit (outcomes "node@20") = false →
      setup_node_macos_attempts false outcomes =
        ["node@22", "node@20", "node"]) := by
  unfold setup_node_macos_attempts nodeFormulas
  refine ⟨fun h22 => ?_, fun h22 h20 => ?_, fun h22 h20 => ?_⟩ <;>
    simp [attemptFormulas_cons, h22] <;>
    simp [attemptFormulas_cons, h20, attemptFormulas]

/-- Witness for C5: node@22 fails with exit 1, node@20 succeeds; exactly
the first two formulas are attempted. -/
theorem C5_node_macos_formula_order_witness :
    zeroExit ((fun f => if f = "node@22" then SpawnOutcome.exited 1 "" ""
        else SpawnOutcome.exited 0 "" "") "node@22") = false ∧
    zeroExit ((fun f => if f = "node@22" then SpawnOutcome.exited 1 "" ""
        else SpawnOutcome.exited 0 "" "") "node@20") = true ∧
    setup_node_macos_attempts false
        (fun f => if f = "node@22" then SpawnOutcome.exited 1 "" ""
          else SpawnOutcome.exited 0 "" "") = ["node@22", "node@20"] :=
  ⟨by decide, by decide,
   (C5_node_macos_formula_order
      (fun f => if f = "node@22" then SpawnOutcome.exited 1 "" ""
        else SpawnOutcome.exited 0 "" "")).2.1 (by decide) (by decide)⟩

/-- Claim C10: with tolerate-failure true (check=False) a missing
executable makes run return None instead of a result and raise nothing;
the Homebrew presence guard handles that None by treating the formula as
not installed, so brew_install proceeds to the install command. -/
theorem C10_tolerated_not_found_returns_none (cmd : Cmd) (cap : Bool)
    (formula out err : String) :
    run cmd .notFound false cap = .ok none ∧
    brewAlreadyInstalled none = false ∧
    brew_install formula .notFound (.exited 0 out err) = .ok true := by
  refine ⟨by simp [run], by simp [brewAlreadyInstalled], ?_⟩
  simp [brew_install, run, brewAlreadyInstalled]

/-- Claim C6: the Linux installer profile forks on the distribution
version string; version 22.04 selects the legacy Chromium package with
binary path /usr/bin/chromium-browser, and version 24.04 selects the
modern package with path /usr/bin/chromium. -/
theorem C6_chromium_version_fork :
    chromiumPackageFor "22.04" = "chromium-browser" ∧
    chromiumBinaryPathFor "22.04" = "/usr/bin/chromium-browser" ∧
    chromiumPackageFor "24.04" = "chromium" ∧
    chromiumBinaryPathFor "24.04" = "/usr/bin/chromium" := by
  refine ⟨?_, ?_, ?_, ?_⟩ <;> decide

/-- Claim C7: the process exit code is 0 on success, 1 on any guarded
step failure or other uncaught exception, and 130 on a user interrupt;
the interrupt is caught at the top level and yields the friendly message
with no stack trace. -/
theorem C7_exit_codes :
    (topLevel .success).exitCode = 0 ∧
    (topLevel .interrupted).exitCode = 130 ∧
    (topLevel .interrupted).friendlyInterruptMessage = true ∧
    (topLevel .interrupted).stackTracePrinted = false ∧
    (∀ m, (topLevel (.failed m)).exitCode = 1) ∧
    (∀ e : RunError, (topLevel (.failed e.message)).exitCode = 1) := by
  refine ⟨rfl, rfl, rfl, rfl, fun m => rfl, fun e => rfl⟩

/-- Claim C8: when the render child exits zero but out/video.mp4 is
absent under the project directory, render_video returns normally with
the warning naming the expected path, and the top level still exits 0. -/
theorem C8_render_artifact_warning (dir out err : String) :
    mainRenderStage dir (.exited 0 out err) false =
      (⟨0, false, false⟩, some ⟨true, dir ++ "/out/video.mp4"⟩) := by
  simp [mainRenderStage, render_video, run, topLevel, mainReturnValue]

/-- Counterexample to claim C9 as stated: the Homebrew bootstrap command
of the macOS profile is executed by the step runner as a raw shell string,
not an argument vector. -/
theorem C9_counterexample :
    homebrewInstallCmd ∈ allRunCommands "u" "d" ∧
    homebrewInstallCmd.isArgVector = false := by
  refine ⟨?_, rfl⟩
  simp [allRunCommands, macosRunCommands]

/-- Claim C9 amended: every command the step runner executes on behalf of
any OS profile or the shared stage, except the macOS Homebrew bootstrap
command, is an argument vector. -/
theorem C9_amended_arg_vectors (url dir : String) (c : Cmd)
    (hc : c ∈ allRunCommands url dir) (hne : c ≠ homebrewInstallCmd) :
    c.isArgVector = true := by
  simp only [allRunCommands, windowsRunCommands, macosRunCommands,
    linuxRunCommands, commonRunCommands, List.mem_append, List.mem_cons,
    List.not_mem_nil, or_false] at hc
  casesm* _ ∨ _ <;> subst_vars <;>
    first
      | rfl
      | exact absurd rfl hne

/-- Witness for the amended claim C9 at the concrete render command. -/
theorem C9_amended_arg_vectors_witness :
    (Cmd.argv ["pnpm", "render"] ∈ allRunCommands "u" "d" ∧
      Cmd.argv ["pnpm", "render"] ≠ homebrewInstallCmd) ∧
    (Cmd.argv ["pnpm", "render"]).isArgVector = true :=
  ⟨⟨by simp [allRunCommands, commonRunCommands], by decide⟩,
   C9_amended_arg_vectors "u" "d" (.argv ["pnpm", "render"])
     (by simp [allRunCommands, commonRunCommands]) (by decide)⟩
